import Mathlib

/-!
Verification of the Anthropic docs scraper (`scraper.py`): a shallow
embedding of its path mapping, freshness cache, rebuild policy, retrying
fetcher and batch orchestration, together with theorems about them.

Modelling conventions:
* A filesystem path is its list of segments (`List String`); `pathlib`'s
  `/` operator is `pathJoin` below.
* The filesystem is an association list from paths to nodes (files with an
  mtime and content, or directories with an mtime).
* Clock values and mtimes are integers (`time.time()` is a real-valued
  clock; only ordering and subtraction matter to the code).
* The network is an oracle `net : Nat → Option String`: `net i` is the
  outcome of the `i`-th fetch attempt of one `download_file` call — `some
  content` when the response is received successfully (and decoded or kept
  as raw bytes, a distinction the rest of the code never inspects), `none`
  when the attempt raises (connection error, `raise_for_status`, read
  failure).
* The `aiolimiter.AsyncLimiter` rate limiter is an external library; we
  record only how many permits a call acquires.
-/

/-- Python `str.strip(c)` for a single strip character: removes all leading
and trailing occurrences of `c`. -/
def pyStrip (c : Char) (s : String) : String :=
  String.mk (((s.toList.dropWhile (fun x => x == c)).reverse.dropWhile
    (fun x => x == c)).reverse)

/-- Python `str.split(sep)` for a one-character separator, on character
lists. Like Python (and unlike a "discard empties" splitter), splitting
the empty string yields `[[]]`, one empty field. -/
def pySplitList (sep : Char) : List Char → List (List Char)
  | [] => [[]]
  | c :: cs =>
      let rest := pySplitList sep cs
      if c == sep then [] :: rest
      else
        match rest with
        | [] => [[c]]
        | r :: rs => (c :: r) :: rs

/-- Python `str.split(sep)` for a one-character separator. -/
def pySplitStrings (sep : Char) (s : String) : List String :=
  (pySplitList sep s.toList).map String.mk

/-- Python `str.endswith(suff)`. -/
def strEndsWith (s suff : String) : Bool :=
  s.toList.drop (s.toList.length - suff.toList.length) == suff.toList

/-- Python `"/".join(parts)`. -/
def joinSlash : List String → String
  | [] => ""
  | [s] => s
  | s :: rest => s ++ "/" ++ joinSlash rest

/-- The segments a string contributes when joined onto a `pathlib` path:
split on `/`, empty segments dropped. -/
def pathSegs (s : String) : List String :=
  (pySplitStrings '/' s).filter (fun x => x ≠ "")

/-- `pathlib`'s `/` operator, on paths-as-segment-lists: an absolute
right operand replaces the left path entirely; otherwise its segments are
appended (empty strings and repeated slashes contribute nothing). -/
def pathJoin (p : List String) (s : String) : List String :=
  if s.toList.head? = some '/' then pathSegs s else p ++ pathSegs s

/-- Scans for the first `://` and returns what follows it, if any. -/
def dropSchemeSep : List Char → Option (List Char)
  | ':' :: '/' :: '/' :: rest => some rest
  | _ :: cs => dropSchemeSep cs
  | [] => none

/-- Model of `urllib.parse.urlparse(url).path`, adequate for the URLs this
scraper handles: drop the fragment (after `#`) and the query (after `?`);
for a `scheme://netloc/path` URL the path starts at the first `/` after
the authority (empty when there is none); a string with no `://` is all
path. -/
def parsedPath (url : String) : String :=
  let u := (pySplitStrings '#' url).headD ""
  let u := (pySplitStrings '?' u).headD ""
  match dropSchemeSep u.toList with
  | none => u
  | some rest => String.mk (rest.dropWhile (fun c => c ≠ '/'))

/-- A filesystem node: a regular file or a directory, each with the mtime
`stat().st_mtime` reports. -/
inductive Node where
  | file (mtime : Int) (content : String)
  | dir (mtime : Int)
deriving DecidableEq, Repr

/-- `stat().st_mtime` of a node. -/
def Node.mtime : Node → Int
  | .file m _ => m
  | .dir m => m

/-- The filesystem: an association list from paths to nodes. -/
structure FS where
  nodes : List (List String × Node)
deriving DecidableEq, Repr

/-- The node at a path, if any. -/
def FS.lookup (fs : FS) (p : List String) : Option Node :=
  (fs.nodes.find? (fun e => e.1 == p)).map (fun e => e.2)

/-- `Path.exists()`: true for files and directories alike. -/
def FS.pathExists (fs : FS) (p : List String) : Bool :=
  (fs.lookup p).isSome

/-- Create or overwrite the node at a path. -/
def FS.setNode (fs : FS) (p : List String) (n : Node) : FS :=
  ⟨(p, n) :: fs.nodes.filter (fun e => !(e.1 == p))⟩

/-- The chain of ancestor directories of a path (everything but the last
segment's full path), shortest first. -/
def ancestors (p : List String) : List (List String) :=
  (((List.range p.length).map (fun i => p.take (i + 1)))).dropLast

/-- `file_path.parent.mkdir(parents=True, exist_ok=True)`: create every
missing ancestor directory, leaving existing nodes untouched. -/
def FS.mkdirParents (fs : FS) (mt : Int) (p : List String) : FS :=
  (ancestors p).foldl
    (fun acc d => if acc.pathExists d then acc else acc.setNode d (Node.dir mt)) fs

/-- Create the parent directories, then write `content` at `p` (the write
the fetcher performs after a fully successful response). -/
def FS.writeFile (fs : FS) (mt : Int) (p : List String) (content : String) : FS :=
  (fs.mkdirParents mt p).setNode p (Node.file mt content)

/-- The scraper's configuration (`AnthropicDocsScraper.__init__`). The
rate limiter it also constructs is the external `aiolimiter` library and
is modelled only through the permit counts below. -/
structure AnthropicDocsScraper where
  base_dir : String := "docs"
  requests_per_second : Nat := 5
  cache_hours : Nat := 1
deriving DecidableEq, Repr

/-- `self.cache_seconds = cache_hours * 3600`. -/
def AnthropicDocsScraper.cache_seconds (S : AnthropicDocsScraper) : Int :=
  (S.cache_hours : Int) * 3600

namespace AnthropicDocsScraper

/-- `url_to_path`: convert a URL (plus its manifest section) to a local
file path. Mirrors the source line by line: strip slashes and split the
URL's path component; drop a leading `en` segment; prefix the section
directory unless the section is empty or the default `"docs"`; the last
segment plus `.md` is the filename, `index.md` when no segments remain. -/
def url_to_path (S : AnthropicDocsScraper) (url : String) (sect : String) :
    List String :=
  let ppath := parsedPath url
  let path_parts := pySplitStrings '/' (pyStrip '/' ppath)
  let path_parts := if path_parts.head? = some "en" then path_parts.tail else path_parts
  let dir_path :=
    if sect ≠ "" ∧ sect ≠ "docs" then
      pathJoin (pathJoin (pathSegs S.base_dir) sect) (joinSlash path_parts.dropLast)
    else
      pathJoin (pathSegs S.base_dir) (joinSlash path_parts.dropLast)
  let filename :=
    if path_parts ≠ [] then
      let f := path_parts.getLastD ""
      if strEndsWith f ".md" then f else f ++ ".md"
    else "index.md"
  pathJoin dir_path filename

/-- `is_file_recent`: false when the path does not exist, else whether
`now - st_mtime < cache_seconds`. -/
def is_file_recent (S : AnthropicDocsScraper) (fs : FS) (now : Int)
    (file_path : List String) : Bool :=
  match fs.lookup file_path with
  | none => false
  | some nd => decide (now - nd.mtime < S.cache_seconds)

/-- `should_do_full_rebuild`: false when the base directory does not
exist; otherwise true iff the local `llms.txt` sentinel is not recent. -/
def should_do_full_rebuild (S : AnthropicDocsScraper) (fs : FS) (now : Int) :
    Bool :=
  if fs.pathExists (pathSegs S.base_dir) = false then false
  else !(S.is_file_recent fs now (pathSegs "llms.txt"))

end AnthropicDocsScraper

/-- The value `download_file` returns for one manifest entry:
`True` (here `fetched`), `"cached"` (here `cached`) or `False` (here
`failed`). -/
inductive Outcome where
  | fetched
  | cached
  | failed
deriving DecidableEq, Repr

/-- Everything observable about one `download_file` call: its return
value, the resulting filesystem, how many rate-limiter permits it
acquired, the URLs it requested over the network (in order), and the
backoff sleeps it performed (in order, in seconds). -/
structure DLResult where
  outcome : Outcome
  fs : FS
  permits : Nat
  requests : List String
  sleeps : List Nat
deriving DecidableEq, Repr

/-- The URL actually requested: `url + ".md"` unless it already ends in
`.md`. -/
def downloadUrl (url : String) : String :=
  if strEndsWith url ".md" then url else url ++ ".md"

/-- The `for attempt in range(max_retries + 1)` loop of `download_file`,
from a given attempt index on. Each iteration acquires one rate-limiter
permit and issues one request for `downloadUrl url`; on success it creates
the missing parent directories, writes the body to `file_path` and returns
`True`; on failure it sleeps `2 ^ attempt` and continues while
`attempt < max_retries`, else returns `False`. -/
def download_attempts (net : Nat → Option String) (url : String)
    (file_path : List String) (now : Int) (max_retries : Nat)
    (attempt : Nat) (fs : FS) : DLResult :=
  match net attempt with
  | some content =>
      { outcome := Outcome.fetched, fs := fs.writeFile now file_path content,
        permits := 1, requests := [downloadUrl url], sleeps := [] }
  | none =>
      if h : attempt < max_retries then
        let r := download_attempts net url file_path now max_retries (attempt + 1) fs
        { outcome := r.outcome, fs := r.fs, permits := r.permits + 1,
          requests := downloadUrl url :: r.requests,
          sleeps := 2 ^ attempt :: r.sleeps }
      else
        { outcome := Outcome.failed, fs := fs, permits := 1,
          requests := [downloadUrl url], sleeps := [] }
termination_by max_retries - attempt
decreasing_by omega

/-- `download_file`: return `"cached"` at once when not forcing and the
file is recent — touching nothing — else run the retry loop. -/
def AnthropicDocsScraper.download_file (S : AnthropicDocsScraper)
    (net : Nat → Option String) (now : Int) (url : String)
    (file_path : List String) (fs : FS) (force : Bool := false)
    (max_retries : Nat := 3) : DLResult :=
  if !force && S.is_file_recent fs now file_path then
    { outcome := Outcome.cached, fs := fs, permits := 0, requests := [],
      sleeps := [] }
  else
    download_attempts net url file_path now max_retries 0 fs

/-- One parsed line of `llms.txt` (`fetch_llms_txt`'s output). The
source's `section` key is `sectionName` here (`section` is reserved in
Lean). -/
structure ManifestEntry where
  title : String
  url : String
  sectionName : String
deriving DecidableEq, Repr

/-- The arguments one `download_file` task is created with by an
orchestrator. -/
structure FetchTask where
  url : String
  file_path : List String
  force : Bool
deriving DecidableEq, Repr

/-- The tasks `init_build_async` creates: every entry is downloaded with
`force=True`. -/
def init_tasks (S : AnthropicDocsScraper) (urls : List ManifestEntry) :
    List FetchTask :=
  urls.map (fun u =>
    { url := u.url, file_path := S.url_to_path u.url u.sectionName,
      force := true })

/-- The tasks `update_build_async` creates: `force=False` (the default)
when the mapped path exists, `force=True` when it is missing. -/
def update_tasks (S : AnthropicDocsScraper) (fs : FS)
    (urls : List ManifestEntry) : List FetchTask :=
  urls.map (fun u =>
    let file_path := S.url_to_path u.url u.sectionName
    if fs.pathExists file_path then
      { url := u.url, file_path := file_path, force := false }
    else
      { url := u.url, file_path := file_path, force := true })

/-- One element of the list `asyncio.gather(*tasks,
return_exceptions=True)` returns: the task's return value, or the
exception it raised. -/
inductive TaskResult where
  | ok (o : Outcome)
  | exn
deriving DecidableEq, Repr

/-- The aggregation both orchestrators perform: `success_count` counts
results that are `True`, `cached_count` counts `"cached"`, and
`fail_count = len(results) - success_count - cached_count`. -/
def count_results (results : List TaskResult) : Nat × Nat × Nat :=
  let success_count := (results.filter (fun r => r == TaskResult.ok Outcome.fetched)).length
  let cached_count := (results.filter (fun r => r == TaskResult.ok Outcome.cached)).length
  let fail_count := results.length - success_count - cached_count
  (success_count, cached_count, fail_count)

/-- A batch run: the tasks execute concurrently, the scheduler/network
deciding each task's result (`exec i` is what the `i`-th gathered task
yielded); the orchestrator then aggregates the results. -/
def run_batch (tasks : List FetchTask) (exec : Nat → TaskResult) :
    Nat × Nat × Nat :=
  count_results ((List.range tasks.length).map exec)

/-- Running the retry loop from attempt `a` when every attempt up to
`max_retries` fails: the loop makes the remaining `mr + 1 - a` attempts,
sleeps `2 ^ i` after each non-final one, leaves the filesystem untouched
and returns `False`. -/
theorem download_attempts_all_none (net : Nat → Option String) (url : String)
    (p : List String) (now : Int) (mr : Nat) :
    ∀ n a fs, mr - a = n → a ≤ mr → (∀ i, a ≤ i → i ≤ mr → net i = none) →
      download_attempts net url p now mr a fs =
        { outcome := Outcome.failed, fs := fs, permits := mr + 1 - a,
          requests := List.replicate (mr + 1 - a) (downloadUrl url),
          sleeps := (List.range' a (mr - a)).map (fun j => 2 ^ j) } := by
  intro n
  induction n with
  | zero =>
      intro a fs hn ha hnet
      have hae : a = mr := by omega
      subst hae
      rw [download_attempts.eq_def, hnet a le_rfl le_rfl]
      have e1 : a + 1 - a = 1 := by omega
      simp [e1]
  | succ k ih =>
      intro a fs hn ha hnet
      have hlt : a < mr := by
        omega
      rw [download_attempts.eq_def, hnet a le_rfl (by omega)]
      simp only [dif_pos hlt]
      rw [ih (a + 1) fs (by omega) (by omega)
        (fun i h1 h2 => hnet i (by omega) h2)]
      have e1 : mr + 1 - a = (mr + 1 - (a + 1)) + 1 := by omega
      have e2 : mr - a = (mr - (a + 1)) + 1 := by omega
      rw [e1, e2, List.replicate_succ, List.range'_succ]
      simp

/-- Running the retry loop from attempt `a` when attempts `a, …, j - 1`
fail and attempt `j` succeeds: the loop makes `j + 1 - a` attempts, sleeps
after each failed one, writes the final body and returns `True`. -/
theorem download_attempts_first_some (net : Nat → Option String) (url : String)
    (p : List String) (now : Int) (mr : Nat) :
    ∀ n a fs j c, j - a = n → a ≤ j → j ≤ mr →
      (∀ i, a ≤ i → i < j → net i = none) → net j = some c →
      download_attempts net url p now mr a fs =
        { outcome := Outcome.fetched, fs := fs.writeFile now p c,
          permits := j + 1 - a,
          requests := List.replicate (j + 1 - a) (downloadUrl url),
          sleeps := (List.range' a (j - a)).map (fun i => 2 ^ i) } := by
  intro n
  induction n with
  | zero =>
      intro a fs j c hn ha hj hnet hj2
      have hae : a = j := by omega
      subst hae
      rw [download_attempts.eq_def, hj2]
      have e1 : a + 1 - a = 1 := by omega
      simp [e1]
  | succ k ih =>
      intro a fs j c hn ha hj hnet hj2
      have hlt : a < mr := by omega
      rw [download_attempts.eq_def, hnet a le_rfl (by omega)]
      simp only [dif_pos hlt]
      rw [ih (a + 1) fs j c (by omega) (by omega) hj
        (fun i h1 h2 => hnet i (by omega) h2) hj2]
      have e1 : j + 1 - a = (j + 1 - (a + 1)) + 1 := by omega
      have e2 : j - a = (j - (a + 1)) + 1 := by omega
      rw [e1, e2, List.replicate_succ, List.range'_succ]
      simp

/-- The retry loop always issues at least one network request. -/
theorem download_attempts_requests_ne_nil (net : Nat → Option String)
    (url : String) (p : List String) (now : Int) (mr a : Nat) (fs : FS) :
    (download_attempts net url p now mr a fs).requests ≠ [] := by
  rw [download_attempts.eq_def]
  cases hnet : net a with
  | some c => simp
  | none =>
      by_cases h : a < mr
      · simp [h]
      · simp [h]

-- Sanity checks of the embedding against hand-traced runs of the source.
example :
    AnthropicDocsScraper.url_to_path {}
      "https://docs.example.com/en/guides/setup" "guides"
      = ["docs", "guides", "guides", "setup.md"] := by decide

example :
    AnthropicDocsScraper.url_to_path {}
      "https://docs.anthropic.com/en/api/getting-started" ""
      = ["docs", "api", "getting-started.md"] := by decide

example :
    AnthropicDocsScraper.url_to_path {} "https://docs.anthropic.com/en" ""
      = ["docs", "index.md"] := by decide

/-- The two filter counts the orchestrators take are counts of disjoint
predicates, so together they never exceed the result count. -/
theorem filter_counts_le (results : List TaskResult) :
    (results.filter (fun r => r == TaskResult.ok Outcome.fetched)).length
      + (results.filter (fun r => r == TaskResult.ok Outcome.cached)).length
      ≤ results.length := by
  induction results with
  | nil => simp
  | cons a t ih =>
      cases a with
      | ok o => cases o <;> simp [List.filter_cons, beq_iff_eq] <;> omega
      | exn => simp [List.filter_cons, beq_iff_eq]; omega

/-- The three aggregated counters always sum to the result count. -/
theorem count_results_sum (results : List TaskResult) :
    (count_results results).1 + (count_results results).2.1
      + (count_results results).2.2 = results.length := by
  have h := filter_counts_le results
  simp only [count_results]
  omega

/-- C1: in both orchestrator modes (`init_build_async` with `force=True`
everywhere, and `update_build_async` with its per-entry force policy),
whatever results the concurrently executed tasks produce — including
raised exceptions surfaced by `gather(return_exceptions=True)` — the
aggregated counters satisfy `fetched + cached + failed = number of
manifest entries`. -/
theorem batch_counts_sum (S : AnthropicDocsScraper) (urls : List ManifestEntry)
    (fs : FS) (exec : Nat → TaskResult) :
    ((run_batch (init_tasks S urls) exec).1
        + (run_batch (init_tasks S urls) exec).2.1
        + (run_batch (init_tasks S urls) exec).2.2 = urls.length) ∧
    ((run_batch (update_tasks S fs urls) exec).1
        + (run_batch (update_tasks S fs urls) exec).2.1
        + (run_batch (update_tasks S fs urls) exec).2.2 = urls.length) := by
  constructor
  · have h := count_results_sum ((List.range (init_tasks S urls).length).map exec)
    simpa [run_batch, init_tasks] using h
  · have h := count_results_sum ((List.range (update_tasks S fs urls).length).map exec)
    simpa [run_batch, update_tasks] using h

/-- C2: when a `download_file` call is not short-circuited by the cache,
(i) if every attempt `0, …, max_retries` fails, the call sleeps
`2 ^ attempt` after each attempt with `attempt < max_retries`, makes
`max_retries + 1` requests and returns `False` (`Failed`) with the
filesystem untouched; (ii) if the first `j` attempts fail and attempt `j`
succeeds, the call sleeps after each of the `j` failures and returns
`True` (`Fetched`). -/
theorem retry_backoff_contract (S : AnthropicDocsScraper)
    (net : Nat → Option String) (now : Int) (url : String) (p : List String)
    (fs : FS) (force : Bool) (mr : Nat)
    (h : force = true ∨ S.is_file_recent fs now p = false) :
    ((∀ i, i ≤ mr → net i = none) →
        S.download_file net now url p fs force mr =
          { outcome := Outcome.failed, fs := fs, permits := mr + 1,
            requests := List.replicate (mr + 1) (downloadUrl url),
            sleeps := (List.range mr).map (fun a => 2 ^ a) }) ∧
    (∀ j c, j ≤ mr → (∀ i, i < j → net i = none) → net j = some c →
        S.download_file net now url p fs force mr =
          { outcome := Outcome.fetched, fs := fs.writeFile now p c,
            permits := j + 1,
            requests := List.replicate (j + 1) (downloadUrl url),
            sleeps := (List.range j).map (fun a => 2 ^ a) }) := by
  have hc : (!force && S.is_file_recent fs now p) = false := by
    rcases h with h | h <;> simp [h]
  constructor
  · intro hnet
    simp only [AnthropicDocsScraper.download_file, hc, Bool.false_eq_true,
      if_false]
    rw [download_attempts_all_none net url p now mr mr 0 fs (by omega)
      (by omega) (fun i h1 h2 => hnet i h2)]
    simp [List.range_eq_range']
  · intro j c hj hnet hjc
    simp only [AnthropicDocsScraper.download_file, hc, Bool.false_eq_true,
      if_false]
    rw [download_attempts_first_some net url p now mr j 0 fs j c (by omega)
      (by omega) hj (fun i h1 h2 => hnet i h2) hjc]
    simp [List.range_eq_range']

/-- Witness for the retry contract: with the default configuration and a
network that fails every attempt, a forced download returns `False` after
four requests and backoff sleeps of 1, 2 and 4 seconds. -/
theorem retry_backoff_contract_witness :
    AnthropicDocsScraper.download_file { } (fun _ => none) 0 "u"
        ["docs", "a.md"] ⟨[]⟩ true 3 =
      { outcome := Outcome.failed, fs := ⟨[]⟩, permits := 3 + 1,
        requests := List.replicate (3 + 1) (downloadUrl "u"),
        sleeps := (List.range 3).map (fun a => 2 ^ a) } :=
  (retry_backoff_contract { } (fun _ => none) 0 "u" ["docs", "a.md"] ⟨[]⟩
    true 3 (Or.inl rfl)).1 (fun _ _ => rfl)

/-- C3: a non-forced `download_file` call on a recent file returns
`"cached"` immediately: the filesystem is returned unchanged, no
rate-limiter permit is acquired, no request is made, no sleep happens. -/
theorem cached_shortcut (S : AnthropicDocsScraper) (net : Nat → Option String)
    (now : Int) (url : String) (p : List String) (fs : FS) (mr : Nat)
    (h : S.is_file_recent fs now p = true) :
    S.download_file net now url p fs false mr =
      { outcome := Outcome.cached, fs := fs, permits := 0, requests := [],
        sleeps := [] } := by
  simp [AnthropicDocsScraper.download_file, h]

/-- A filesystem holding one file, written at time 0. -/
def fsOneFile : FS := ⟨[(["docs", "a.md"], Node.file 0 "body")]⟩

/-- Witness for the cache shortcut: a file written at time 0 read at time
0 with the default 1-hour window is fresh, so the call is a no-op
returning `"cached"`. -/
theorem cached_shortcut_witness :
    AnthropicDocsScraper.download_file { } (fun _ => none) 0 "u"
        ["docs", "a.md"] fsOneFile false 3 =
      { outcome := Outcome.cached, fs := fsOneFile, permits := 0,
        requests := [], sleeps := [] } :=
  cached_shortcut { } (fun _ => none) 0 "u" ["docs", "a.md"] fsOneFile 3
    (by decide)

/-- C4: a fetch whose every attempt fails leaves the filesystem exactly as
it was — no file write, no directory creation — and in particular leaves
no file at the destination if none existed before. -/
theorem failed_fetch_writes_nothing (S : AnthropicDocsScraper)
    (net : Nat → Option String) (now : Int) (url : String) (p : List String)
    (fs : FS) (force : Bool) (mr : Nat)
    (h : ∀ i, i ≤ mr → net i = none) :
    (S.download_file net now url p fs force mr).fs = fs ∧
    (fs.lookup p = none →
      ((S.download_file net now url p fs force mr).fs).lookup p = none) := by
  have hfs : (S.download_file net now url p fs force mr).fs = fs := by
    by_cases hc : (!force && S.is_file_recent fs now p) = true
    · simp [AnthropicDocsScraper.download_file, hc]
    · rw [Bool.not_eq_true] at hc
      simp only [AnthropicDocsScraper.download_file, hc, Bool.false_eq_true,
        if_false]
      rw [download_attempts_all_none net url p now mr mr 0 fs (by omega)
        (by omega) (fun i h1 h2 => h i h2)]
  exact ⟨hfs, fun h2 => by rw [hfs]; exact h2⟩

/-- Witness: a forced download against an always-failing network leaves an
empty filesystem empty. -/
theorem failed_fetch_writes_nothing_witness :
    (AnthropicDocsScraper.download_file { } (fun _ => none) 0 "u"
        ["docs", "a.md"] ⟨[]⟩ true 3).fs = (⟨[]⟩ : FS) ∧
    ((⟨[]⟩ : FS).lookup ["docs", "a.md"] = none →
      ((AnthropicDocsScraper.download_file { } (fun _ => none) 0 "u"
        ["docs", "a.md"] ⟨[]⟩ true 3).fs).lookup ["docs", "a.md"] = none) :=
  failed_fetch_writes_nothing { } (fun _ => none) 0 "u" ["docs", "a.md"]
    ⟨[]⟩ true 3 (fun _ _ => rfl)

/-- C5: in incremental (update) mode, the task built for the `i`-th
manifest entry targets that entry's mapped path and carries
`force = false` exactly when the path exists (`force = true` when it is
missing); and any `force=true` call of `download_file` issues at least one
network request, whatever the cache window or filesystem say. -/
theorem update_mode_force_policy (S : AnthropicDocsScraper) (fs : FS)
    (urls : List ManifestEntry) (i : Nat) (h : i < urls.length) :
    (update_tasks S fs urls)[i]? =
      some { url := urls[i].url,
             file_path := S.url_to_path urls[i].url urls[i].sectionName,
             force := !(fs.pathExists
               (S.url_to_path urls[i].url urls[i].sectionName)) } ∧
    (∀ (net : Nat → Option String) (now : Int) (url2 : String)
        (p2 : List String) (mr : Nat),
      (S.download_file net now url2 p2 fs true mr).requests ≠ []) := by
  constructor
  · simp only [update_tasks, List.getElem?_map, List.getElem?_eq_getElem h,
      Option.map_some]
    by_cases hp :
        fs.pathExists (S.url_to_path urls[i].url urls[i].sectionName) = true
    · simp [hp]
    · rw [Bool.not_eq_true] at hp
      simp [hp]
  · intro net now url2 p2 mr
    simp only [AnthropicDocsScraper.download_file, Bool.not_true,
      Bool.false_and, Bool.false_eq_true, if_false]
    exact download_attempts_requests_ne_nil net url2 p2 now mr 0 fs

/-- Witness for the update-mode force policy on a one-entry manifest over
an empty filesystem: the mapped path is missing, so the task is created
with `force = true`. -/
theorem update_mode_force_policy_witness :
    (update_tasks { } ⟨[]⟩
        [{ title := "t", url := "https://x.com/a", sectionName := "api" }])[0]? =
      some { url := "https://x.com/a",
             file_path := AnthropicDocsScraper.url_to_path { }
               "https://x.com/a" "api",
             force := true } ∧
    (∀ (net : Nat → Option String) (now : Int) (url2 : String)
        (p2 : List String) (mr : Nat),
      (AnthropicDocsScraper.download_file { } net now url2 p2 ⟨[]⟩ true
        mr).requests ≠ []) :=
  update_mode_force_policy { } ⟨[]⟩
    [{ title := "t", url := "https://x.com/a", sectionName := "api" }] 0
    (by decide)

/-- C6: the rebuild decision is exactly "the output tree exists AND the
`llms.txt` sentinel is not fresh"; in particular it is `false` whenever
the output tree does not exist, regardless of the sentinel's state. -/
theorem rebuild_decision_characterisation (S : AnthropicDocsScraper)
    (fs : FS) (now : Int) :
    S.should_do_full_rebuild fs now
      = (fs.pathExists (pathSegs S.base_dir)
          && !(S.is_file_recent fs now (pathSegs "llms.txt"))) := by
  rcases Bool.eq_false_or_eq_true (fs.pathExists (pathSegs S.base_dir))
    with h | h <;>
  simp [AnthropicDocsScraper.should_do_full_rebuild, h]

/-- C7 (counterexample evaluation): for a URL whose path component is
empty, `url_to_path` does NOT fall back to the `index.md` default: Python
evaluates `"".split("/")` to `[""]`, a non-empty list, so the
`filename = "index.md"` branch is skipped and the filename becomes
`"" + ".md" = ".md"`. The fixed default is reached only when the path was
exactly the stripped `en` prefix. -/
theorem empty_path_url_yields_bare_md :
    AnthropicDocsScraper.url_to_path { } "https://docs.anthropic.com" ""
        = ["docs", ".md"] ∧
    AnthropicDocsScraper.url_to_path { } "https://docs.anthropic.com" ""
        ≠ ["docs", "index.md"] ∧
    AnthropicDocsScraper.url_to_path { } "https://docs.anthropic.com/en" ""
        = ["docs", "index.md"] := by
  decide

/-- C8: freshness is monotone backwards in time — a file fresh at `t` is
fresh at every earlier `t'` (same filesystem, same window). -/
theorem freshness_monotone (S : AnthropicDocsScraper) (fs : FS)
    (p : List String) (t t' : Int) (h1 : t' < t)
    (h2 : S.is_file_recent fs t p = true) :
    S.is_file_recent fs t' p = true := by
  cases hl : fs.lookup p with
  | none =>
      simp only [AnthropicDocsScraper.is_file_recent, hl] at h2
      exact Bool.noConfusion h2
  | some nd =>
      simp only [AnthropicDocsScraper.is_file_recent, hl,
        decide_eq_true_eq] at h2 ⊢
      omega

/-- Witness for freshness monotonicity: the file written at time 0 is
fresh at `t = 10`, hence also at `t' = 5`. -/
theorem freshness_monotone_witness :
    AnthropicDocsScraper.is_file_recent { } fsOneFile 5 ["docs", "a.md"]
      = true :=
  freshness_monotone { } fsOneFile ["docs", "a.md"] 10 5 (by decide)
    (by decide)

/-- C10: when the output directory exists but the local `llms.txt`
sentinel does not exist at all, `should_do_full_rebuild` returns `true`
(a missing sentinel is never recent), which is the branch of
`init_build_async` that backs up and then deletes the whole tree before
fetching. -/
theorem rebuild_true_when_sentinel_missing (S : AnthropicDocsScraper)
    (fs : FS) (now : Int)
    (h1 : fs.pathExists (pathSegs S.base_dir) = true)
    (h2 : fs.lookup (pathSegs "llms.txt") = none) :
    S.should_do_full_rebuild fs now = true := by
  simp [AnthropicDocsScraper.should_do_full_rebuild, h1,
    AnthropicDocsScraper.is_file_recent, h2]

/-- A filesystem holding only the output directory, no sentinel. -/
def fsDirOnly : FS := ⟨[(["docs"], Node.dir 0)]⟩

/-- Witness: an output tree with no local `llms.txt` triggers a full
rebuild. -/
theorem rebuild_true_when_sentinel_missing_witness :
    AnthropicDocsScraper.should_do_full_rebuild { } fsDirOnly 0 = true :=
  rebuild_true_when_sentinel_missing { } fsDirOnly 0 (by decide) (by decide)
